import Mathlib

/-!
Verification of the to-do list application (`src/app.py`) against its
natural-language specification.  The Python source is shallowly embedded:
the persisted JSON file is modelled as a `FileState` (absent, present but
unparsable, or a parsed JSON value), task records as a `Task` structure
with the eight fields of the data model, and each operation of the app
(`load_tasks`, `save_tasks`, the add/edit/toggle handlers, the filter
pipeline of `display_tasks`, and the aggregations of `show_charts`) as a
Lean function translated from the corresponding Python code.
-/

set_option autoImplicit false

namespace TodoApp

/-- A JSON value, the abstract result of Python's `json.load` /
the abstract input of `json.dump`. -/
inductive Json where
  | str (s : String)
  | int (n : Int)
  | bool (b : Bool)
  | null
  | arr (elems : List Json)
  | obj (fields : List (String × Json))

/-- A task record with the eight keys the app creates in `add_task_form`
(`src/app.py` lines 218-227) and that section 6 of the spec lists for the
persisted file.  A missing optional `due_date` is represented by the empty
string, which the display code treats the same as an absent key
(`if 'due_date' in task and task['due_date']`). -/
structure Task where
  id : Int
  task : String
  category : String
  priority : String
  due_date : String
  notes : String
  completed : Bool
  created_at : String
  deriving DecidableEq, Repr

/-- Encoding of a single task dict by `json.dump`, at the JSON-value level:
the dict with its eight keys in the insertion order of `add_task_form`. -/
def encodeTask (t : Task) : Json :=
  Json.obj [("id", Json.int t.id), ("task", Json.str t.task),
            ("category", Json.str t.category), ("priority", Json.str t.priority),
            ("due_date", Json.str t.due_date), ("notes", Json.str t.notes),
            ("completed", Json.bool t.completed), ("created_at", Json.str t.created_at)]

/-- Encoding of the full task list by `json.dump`: a JSON array of task
objects. -/
def encodeTasks (tasks : List Task) : Json :=
  Json.arr (tasks.map encodeTask)

/-- Key lookup in a JSON object's field list (Python dict indexing). -/
def findField : List (String × Json) → String → Option Json
  | [], _ => none
  | (k, v) :: rest, key => if k = key then some v else findField rest key

/-- Reads a JSON value back as a task record, checking the key types of
section 6 of the spec (`id` integer, `completed` boolean, the rest strings).
Used to state that the loaded value is *equal to* the saved task list. -/
def decodeTask : Json → Option Task
  | Json.obj fields =>
    match findField fields "id", findField fields "task", findField fields "category",
          findField fields "priority", findField fields "due_date", findField fields "notes",
          findField fields "completed", findField fields "created_at" with
    | some (Json.int i), some (Json.str ta), some (Json.str c), some (Json.str p),
      some (Json.str d), some (Json.str no), some (Json.bool co), some (Json.str cr) =>
        some ⟨i, ta, c, p, d, no, co, cr⟩
    | _, _, _, _, _, _, _, _ => none
  | _ => none

/-- Reads a list of JSON values back as task records; fails if any element
fails. -/
def decodeTaskList : List Json → Option (List Task)
  | [] => some []
  | j :: rest =>
    match decodeTask j, decodeTaskList rest with
    | some t, some ts => some (t :: ts)
    | _, _ => none

/-- Reads a JSON value back as a task list (a JSON array of task objects,
per section 6 of the spec). -/
def decodeTasks : Json → Option (List Task)
  | Json.arr elems => decodeTaskList elems
  | _ => none

/-- The state of the persisted file `todo_data.json`: absent
(`os.path.exists` is false), present but failing to parse
(`json.load` raises `JSONDecodeError`), or parsed to a JSON value. -/
inductive FileState where
  | absent
  | unparsable
  | parsed (j : Json)

/-- Model of `load_tasks` (`src/app.py` lines 11-18): returns `[]` when the
file is absent or unparsable, otherwise the parsed JSON value. -/
def load_tasks : FileState → Json
  | FileState.absent => Json.arr []
  | FileState.unparsable => Json.arr []
  | FileState.parsed j => j

/-- Model of `save_tasks` (`src/app.py` lines 20-22): serializes the full
list, overwriting the file entirely regardless of its previous state. -/
def save_tasks (tasks : List Task) (_old : FileState) : FileState :=
  FileState.parsed (encodeTasks tasks)

/-- The application state: the in-memory task list (`st.session_state.tasks`)
and the persisted file. -/
structure AppState where
  tasks : List Task
  file : FileState

/-- The value of `datetime.now()` together with the two renderings the add
form takes of it: milliseconds since the epoch (so that
`int(datetime.now().timestamp())` is `ms / 1000`), and its
`strftime("%Y-%m-%d %H:%M:%S")` string. -/
structure Clock where
  ms : Nat
  dateTimeStr : String

/-- The fields of the sidebar add-task form (`src/app.py` lines 207-211);
`due` is the chosen date already rendered by `strftime("%Y-%m-%d")`. -/
structure AddInput where
  task : String
  category : String
  priority : String
  due : String
  notes : String

/-- Outcome of one run of the add form: the form was not submitted, it
rejected the submission with a user-visible error message, or it produced a
new task record. -/
inductive FormResult where
  | notSubmitted
  | validationError (msg : String)
  | newTask (t : Task)
  deriving DecidableEq

/-- Model of `add_task_form` (`src/app.py` lines 204-228): on submit, rejects
an empty description with `st.sidebar.error(...)` and returns `None`;
otherwise builds the new record with `id = int(datetime.now().timestamp())`
and `completed = False`. -/
def add_task_form (submitted : Bool) (inp : AddInput) (clock : Clock) : FormResult :=
  if !submitted then FormResult.notSubmitted
  else if inp.task = "" then FormResult.validationError "Task description is required!"
  else FormResult.newTask
    { id := Int.ofNat (clock.ms / 1000), task := inp.task, category := inp.category,
      priority := inp.priority, due_date := inp.due, notes := inp.notes,
      completed := false, created_at := clock.dateTimeStr }

/-- The add-task handling in `main` (`src/app.py` lines 263-268):
`new_task = add_task_form(); if new_task: tasks.append(new_task); save_tasks(tasks)`.
When the form yields no task, the state is untouched. -/
def main_add (s : AppState) (submitted : Bool) (inp : AddInput) (clock : Clock) : AppState :=
  match add_task_form submitted inp clock with
  | FormResult.newTask t =>
    let tasks := s.tasks ++ [t]
    { tasks := tasks, file := save_tasks tasks s.file }
  | _ => s

/-- In-place mutation of the list element at position `i` (Python mutates the
dict the session-state list aliases at that position). -/
def mutateAt : List Task → Nat → (Task → Task) → List Task
  | [], _, _ => []
  | t :: ts, 0, f => f t :: ts
  | t :: ts, Nat.succ n, f => t :: mutateAt ts n f

/-- The field updates of the Save-Changes branch of `edit_task_form`
(`src/app.py` lines 136-140): `task`, `category`, `priority` and `due_date`
are overwritten, the other keys of the dict are untouched. -/
def edit_fields (t : Task) (newTask newCategory newPriority newDue : String) : Task :=
  { t with task := newTask, category := newCategory,
           priority := newPriority, due_date := newDue }

/-- The Save-Changes handler of `edit_task_form` (`src/app.py` lines
136-143): mutates the task the edit form aliases (position `i` of the
session list) and then persists the full list with
`save_tasks(st.session_state.tasks)`. -/
def edit_save (s : AppState) (i : Nat) (newTask newCategory newPriority newDue : String) :
    AppState :=
  let tasks := mutateAt s.tasks i (fun t => edit_fields t newTask newCategory newPriority newDue)
  { tasks := tasks, file := save_tasks tasks s.file }

/-- The completion-checkbox handler of `display_tasks` (`src/app.py` lines
67-72): when the checkbox value differs from the stored `completed` flag, the
aliased task's `completed` field is set and the full list is persisted;
otherwise nothing happens. -/
def toggle_complete (s : AppState) (i : Nat) (done : Bool) : AppState :=
  match s.tasks[i]? with
  | none => s
  | some t =>
    if done = t.completed then s
    else
      let tasks := mutateAt s.tasks i (fun u => { u with completed := done })
      { tasks := tasks, file := save_tasks tasks s.file }

/-- Whether `needle` occurs at the start of `hay` (character lists). -/
def startsWithChars : List Char → List Char → Bool
  | _, [] => true
  | [], _ :: _ => false
  | c :: cs, d :: ds => c == d && startsWithChars cs ds

/-- Python's substring test `needle in hay` on character lists. -/
def containsChars : List Char → List Char → Bool
  | [], needle => needle.isEmpty
  | c :: cs, needle => startsWithChars (c :: cs) needle || containsChars cs needle

/-- The four filter widgets of `display_tasks` (`src/app.py` lines 37-57):
the search box (empty string means no search), the category and priority
dropdowns (`"All"` sentinel) and the status dropdown
(`"All"` / `"Completed"` / `"Pending"`). -/
structure FilterCriteria where
  search : String
  category : String
  priority : String
  status : String

/-- The search stage of the pipeline (`src/app.py` lines 37-39):
`if search_term: [t for t in ft if search_term.lower() in t['task'].lower()]`. -/
def searchStage (c : FilterCriteria) (l : List Task) : List Task :=
  if c.search ≠ "" then
    l.filter (fun t => containsChars t.task.toLower.data c.search.toLower.data)
  else l

/-- The category stage (`src/app.py` lines 42-45): narrows to equal category
unless the dropdown is at the `"All"` sentinel. -/
def categoryStage (c : FilterCriteria) (l : List Task) : List Task :=
  if c.category ≠ "All" then l.filter (fun t => t.category == c.category) else l

/-- The priority stage (`src/app.py` lines 48-50). -/
def priorityStage (c : FilterCriteria) (l : List Task) : List Task :=
  if c.priority ≠ "All" then l.filter (fun t => t.priority == c.priority) else l

/-- The status stage (`src/app.py` lines 53-57): `"Completed"` keeps completed
tasks, `"Pending"` keeps incomplete tasks, anything else is a no-op. -/
def statusStage (c : FilterCriteria) (l : List Task) : List Task :=
  if c.status = "Completed" then l.filter (fun t => t.completed)
  else if c.status = "Pending" then l.filter (fun t => !t.completed)
  else l

/-- The filter pipeline of `display_tasks` (`src/app.py` lines 34-57):
starting from a copy of the full list, each active criterion narrows the
running list, in the fixed order search → category → priority → status. -/
def applyFilters (tasks : List Task) (c : FilterCriteria) : List Task :=
  statusStage c (priorityStage c (categoryStage c (searchStage c tasks)))

/-- Relation stating that `c'` applies at most the filters of `c`: in each of
the four slots, `c'` either leaves the criterion at its inactive sentinel or
keeps it equal to `c`'s value.  Going from `c'` to `c` is "applying
additional filters". -/
def Refines (c c' : FilterCriteria) : Prop :=
  (c'.search = "" ∨ c'.search = c.search) ∧
  (c'.category = "All" ∨ c'.category = c.category) ∧
  (c'.priority = "All" ∨ c'.priority = c.priority) ∧
  ((c'.status ≠ "Completed" ∧ c'.status ≠ "Pending") ∨ c'.status = c.status)

/-- A calendar date, the result of `datetime.strptime(s, "%Y-%m-%d").date()`. -/
structure Date where
  year : Nat
  month : Nat
  day : Nat
  deriving DecidableEq, Repr

/-- Gregorian leap-year rule, as used by Python's `datetime` validation. -/
def isLeapYear (y : Nat) : Bool :=
  y % 4 == 0 && (y % 100 != 0 || y % 400 == 0)

/-- Number of days of month `m` in year `y`. -/
def daysInMonth (y m : Nat) : Nat :=
  if m = 2 then (if isLeapYear y then 29 else 28)
  else if m = 4 ∨ m = 6 ∨ m = 9 ∨ m = 11 then 30
  else 31

/-- The decimal value of a digit character, `none` for a non-digit. -/
def digitVal (c : Char) : Option Nat :=
  if 48 ≤ c.toNat ∧ c.toNat ≤ 57 then some (c.toNat - 48) else none

/-- Reads a run of decimal digits as a number; fails on any non-digit. -/
def parseNatAux : List Char → Nat → Option Nat
  | [], acc => some acc
  | c :: cs, acc =>
    match digitVal c with
    | some d => parseNatAux cs (10 * acc + d)
    | none => none

/-- Reads a non-empty all-digit character run as a number. -/
def parseNatChars : List Char → Option Nat
  | [] => none
  | c :: cs => parseNatAux (c :: cs) 0

/-- Splits a character list at every dash, like `"Y-M-D".split("-")`. -/
def splitDash : List Char → List (List Char)
  | [] => [[]]
  | c :: cs =>
    if c = '-' then [] :: splitDash cs
    else
      match splitDash cs with
      | [] => [[c]]
      | grp :: grps => (c :: grp) :: grps

/-- Model of `datetime.strptime(s, "%Y-%m-%d")`: three dash-separated decimal
fields forming a valid calendar date; any other string raises, which the
callers catch (`except: pass`), modelled as `none`. -/
def parse_date (s : String) : Option Date :=
  match splitDash s.data with
  | [ys, ms, ds] =>
    match parseNatChars ys, parseNatChars ms, parseNatChars ds with
    | some y, some m, some d =>
      if 1 ≤ m ∧ m ≤ 12 ∧ 1 ≤ d ∧ d ≤ daysInMonth y m then some ⟨y, m, d⟩ else none
    | _, _, _ => none
  | _ => none

/-- Days since 1970-01-01 of a calendar date (civil-calendar conversion), so
that Python's `(due_date - today).days` is `due.toDays - today.toDays`. -/
def Date.toDays (dt : Date) : Int :=
  let y : Int := (dt.year : Int) - (if dt.month ≤ 2 then 1 else 0)
  let era : Int := y.fdiv 400
  let yoe : Int := y - era * 400
  let mp : Int := ((dt.month : Int) + 9) % 12
  let doy : Int := (153 * mp + 2).fdiv 5 + (dt.day : Int) - 1
  let doe : Int := yoe * 365 + yoe.fdiv 4 - yoe.fdiv 100 + doy
  era * 146097 + doe - 719468

/-- The due-date annotation `display_tasks` appends to a task row
(`src/app.py` lines 82-95). -/
inductive DueStatus where
  | overdue (days : Int)
  | dueToday
  | remaining (days : Int)
  deriving DecidableEq, Repr

/-- The due-date handling of `display_tasks` (`src/app.py` lines 82-95):
when the task has a non-empty `due_date` that parses, classify
`days_left = (due_date - today).days`; a parse failure is swallowed by the
bare `except` and yields no status. -/
def display_due_status (t : Task) (today : Date) : Option DueStatus :=
  if t.due_date = "" then none
  else
    match parse_date t.due_date with
    | none => none
    | some due =>
      let daysLeft := due.toDays - today.toDays
      some (if daysLeft < 0 then DueStatus.overdue (-daysLeft)
            else if daysLeft = 0 then DueStatus.dueToday
            else DueStatus.remaining daysLeft)

/-- The classification of section 4.4 of the spec, stated from the spec's
words: `days_left = due_date - today` in days; negative means overdue with
severity `-days_left`, zero means due today, positive means days remaining;
a missing or unparsable `due_date` derives no status. -/
def spec_due_status (t : Task) (today : Date) : Option DueStatus :=
  (parse_date t.due_date).map (fun due =>
    let daysLeft := due.toDays - today.toDays
    if daysLeft < 0 then DueStatus.overdue (-daysLeft)
    else if daysLeft = 0 then DueStatus.dueToday
    else DueStatus.remaining daysLeft)

/-- Value of `days_until_due` as the Due Date Analysis of `show_charts`
computes it (`src/app.py` line 186):
`(pd.to_datetime(due_date) - pd.Timestamp.now()).dt.days`, the *timestamp*
difference between midnight of the due date and the current moment, floored
to whole days.  Time is measured in minutes since the epoch; `dueDay` is the
due date's day number. -/
def chart_days_until_due (dueDay : Int) (nowMin : Int) : Int :=
  (dueDay * 1440 - nowMin).fdiv 1440

/-- Value of `days_until_due` as the claim derives it, stated from the spec's
words (section 4.4): the due date minus today, in days. -/
def spec_days_until_due (dueDay today : Int) : Int :=
  dueDay - today

/-- The bucket label of `show_charts` (`src/app.py` lines 187-189):
`"Overdue" if d < 0 else ("Due Soon" if d <= 3 else "Future")`. -/
def chart_status (d : Int) : String :=
  if d < 0 then "Overdue" else if d ≤ 3 then "Due Soon" else "Future"

/-- Model of `pd.to_datetime(df['due_date'])` applied to every row: day
numbers of all the due dates, failing (exception caught at line 197, nothing
rendered) if any row fails to parse. -/
def parse_due_days : List Task → Option (List (Task × Int))
  | [] => some []
  | t :: ts =>
    match (parse_date t.due_date).map Date.toDays, parse_due_days ts with
    | some d, some rest => some ((t, d) :: rest)
    | _, _ => none

/-- The `status` column of `show_charts` (`src/app.py` lines 183-189): every
row, completed or not, gets a bucket label from its `days_until_due`. -/
def chart_status_rows (tasks : List Task) (nowMin : Int) : Option (List (Task × String)) :=
  (parse_due_days tasks).map
    (List.map (fun r => (r.1, chart_status (chart_days_until_due r.2 nowMin))))

/-- The data of the Pending Tasks by Due Status chart (`src/app.py` line
191): the status labels of the incomplete rows only (`df[~df['completed']]`). -/
def pending_status_list (tasks : List Task) (nowMin : Int) : Option (List String) :=
  (chart_status_rows tasks nowMin).map
    (fun rows => (rows.filter (fun r => !r.1.completed)).map Prod.snd)

/-- The 0/1 value a Python `bool` contributes to a pandas column mean. -/
def boolIndicator (b : Bool) : ℚ :=
  if b then 1 else 0

/-- Model of `pandas.Series.mean`: the sum of the values divided by their
count. -/
def seriesMean (xs : List ℚ) : ℚ :=
  xs.sum / (xs.length : ℚ)

/-- The completion-rate metric of `show_charts` (`src/app.py` lines 152-161):
`None` when the task list is empty (the function returns before computing
anything), otherwise `df['completed'].mean() * 100`. -/
def completion_rate (tasks : List Task) : Option ℚ :=
  if tasks.isEmpty then none
  else some (seriesMean (tasks.map (fun t => boolIndicator t.completed)) * 100)

theorem decodeTask_encodeTask (t : Task) : decodeTask (encodeTask t) = some t := rfl

theorem decodeTasks_encodeTasks (tasks : List Task) :
    decodeTasks (encodeTasks tasks) = some tasks := by
  induction tasks with
  | nil => rfl
  | cons t ts ih =>
    simp only [decodeTasks, encodeTasks, List.map] at ih ⊢
    simp [decodeTaskList, decodeTask_encodeTask, ih]

/-- C1: For every task list whose records have the Task shape of section 3,
performing `save(tasks)` and then `load()` yields a list equal to `tasks`:
same ids, same field values, same order. -/
theorem save_load_round_trip (tasks : List Task) (old : FileState) :
    decodeTasks (load_tasks (save_tasks tasks old)) = some tasks := by
  simpa [load_tasks, save_tasks] using decodeTasks_encodeTasks tasks

/-- C3: `load()` never raises to the caller: for every state of the persisted
file, if the file is absent or its content fails to parse, `load()` returns an
empty sequence; otherwise it returns the parsed task list. -/
theorem load_tasks_total_spec :
    load_tasks FileState.absent = Json.arr [] ∧
    load_tasks FileState.unparsable = Json.arr [] ∧
    ∀ j : Json, load_tasks (FileState.parsed j) = j :=
  ⟨rfl, rfl, fun _ => rfl⟩

/-- C2: a submitted Add with an empty task description is rejected with a
user-visible validation error, and neither the in-memory task list nor the
persisted file is mutated (no save occurs on rejection). -/
theorem add_empty_rejected (s : AppState) (inp : AddInput) (clock : Clock)
    (h : inp.task = "") :
    add_task_form true inp clock =
      FormResult.validationError "Task description is required!" ∧
    main_add s true inp clock = s := by
  constructor
  · simp [add_task_form, h]
  · simp [main_add, add_task_form, h]

theorem add_empty_rejected_witness :
    add_task_form true ⟨"", "General", "High", "2026-10-12", ""⟩ ⟨1700000000200, "t"⟩ =
      FormResult.validationError "Task description is required!" ∧
    main_add ⟨[], FileState.absent⟩ true ⟨"", "General", "High", "2026-10-12", ""⟩
      ⟨1700000000200, "t"⟩ = ⟨[], FileState.absent⟩ :=
  add_empty_rejected ⟨[], FileState.absent⟩ ⟨"", "General", "High", "2026-10-12", ""⟩
    ⟨1700000000200, "t"⟩ rfl

/-- C4 (code bug): the id `int(datetime.now().timestamp())` has one-second
resolution, so two Add operations submitted within the same wall-clock second
(here 0.7 s apart, at Unix times 1700000000.200 and 1700000000.900) assign
the same id to both tasks, violating the pairwise-distinct-ids invariant and
the code's own comment "Unique ID for each task". -/
theorem add_same_second_id_collision :
    let clock1 : Clock := ⟨1700000000200, "2023-11-14 22:13:20"⟩
    let clock2 : Clock := ⟨1700000000900, "2023-11-14 22:13:20"⟩
    let inp1 : AddInput := ⟨"buy milk", "General", "High", "2023-11-15", ""⟩
    let inp2 : AddInput := ⟨"walk dog", "General", "Low", "2023-11-16", ""⟩
    let s1 := main_add ⟨[], FileState.absent⟩ true inp1 clock1
    let s2 := main_add s1 true inp2 clock2
    clock1.ms ≠ clock2.ms ∧
    s2.tasks.map Task.id = [1700000000, 1700000000] ∧
    ¬ (s2.tasks.map Task.id).Nodup := by
  refine ⟨by decide, by decide, ?_⟩
  decide

theorem mutateAt_length (ts : List Task) (i : Nat) (f : Task → Task) :
    (mutateAt ts i f).length = ts.length := by
  induction ts generalizing i with
  | nil => rfl
  | cons t ts ih =>
    cases i with
    | zero => rfl
    | succ n => simpa [mutateAt] using ih n

theorem mutateAt_get_ne (ts : List Task) (i j : Nat) (f : Task → Task) (h : j ≠ i) :
    (mutateAt ts i f)[j]? = ts[j]? := by
  induction ts generalizing i j with
  | nil => rfl
  | cons t ts ih =>
    cases i with
    | zero =>
      cases j with
      | zero => exact absurd rfl h
      | succ m => simp [mutateAt]
    | succ n =>
      cases j with
      | zero => simp [mutateAt]
      | succ m =>
        simp only [mutateAt, List.getElem?_cons_succ]
        exact ih n m (fun hmn => h (by simpa using hmn))

theorem mutateAt_get_eq (ts : List Task) (i : Nat) (f : Task → Task) (t : Task)
    (h : ts[i]? = some t) : (mutateAt ts i f)[i]? = some (f t) := by
  induction ts generalizing i with
  | nil => simp at h
  | cons u ts ih =>
    cases i with
    | zero => simp_all [mutateAt]
    | succ n =>
      simp only [mutateAt, List.getElem?_cons_succ] at h ⊢
      exact ih n h

/-- C7: Edit replaces only the `task`, `category`, `priority` and `due_date`
fields of the identified task in place, leaves its `id`, `created_at` and
`completed` fields unchanged, leaves every other task unchanged, and then
persists the list. -/
theorem edit_frame (s : AppState) (i : Nat) (nt nc np nd : String) (t : Task)
    (h : s.tasks[i]? = some t) :
    let s' := edit_save s i nt nc np nd
    (∀ j, j ≠ i → s'.tasks[j]? = s.tasks[j]?) ∧
    (∃ t', s'.tasks[i]? = some t' ∧
      t'.task = nt ∧ t'.category = nc ∧ t'.priority = np ∧ t'.due_date = nd ∧
      t'.id = t.id ∧ t'.created_at = t.created_at ∧ t'.completed = t.completed ∧
      t'.notes = t.notes) ∧
    s'.tasks.length = s.tasks.length ∧
    s'.file = FileState.parsed (encodeTasks s'.tasks) := by
  refine ⟨fun j hj => mutateAt_get_ne s.tasks i j _ hj, ?_, mutateAt_length s.tasks i _, rfl⟩
  exact ⟨edit_fields t nt nc np nd, mutateAt_get_eq s.tasks i _ t h,
    rfl, rfl, rfl, rfl, rfl, rfl, rfl, rfl⟩

theorem edit_frame_witness :
    let t0 : Task := ⟨1700000000, "buy milk", "General", "High", "2023-11-15", "n",
      false, "2023-11-14 22:13:20"⟩
    let s : AppState := ⟨[t0], FileState.absent⟩
    let s' := edit_save s 0 "buy bread" "Food" "Low" "2023-11-20"
    (∀ j, j ≠ 0 → s'.tasks[j]? = s.tasks[j]?) ∧
    (∃ t', s'.tasks[0]? = some t' ∧
      t'.task = "buy bread" ∧ t'.category = "Food" ∧ t'.priority = "Low" ∧
      t'.due_date = "2023-11-20" ∧
      t'.id = t0.id ∧ t'.created_at = t0.created_at ∧ t'.completed = t0.completed ∧
      t'.notes = t0.notes) ∧
    s'.tasks.length = s.tasks.length ∧
    s'.file = FileState.parsed (encodeTasks s'.tasks) :=
  edit_frame ⟨[⟨1700000000, "buy milk", "General", "High", "2023-11-15", "n",
    false, "2023-11-14 22:13:20"⟩], FileState.absent⟩ 0 "buy bread" "Food" "Low"
    "2023-11-20" _ rfl

/-- C10: flipping a task's completion checkbox changes only that task's
`completed` field; every other field of that task and every other task are
unchanged, and the full list is then persisted. -/
theorem toggle_frame (s : AppState) (i : Nat) (done : Bool) (t : Task)
    (h : s.tasks[i]? = some t) (hne : done ≠ t.completed) :
    let s' := toggle_complete s i done
    (∀ j, j ≠ i → s'.tasks[j]? = s.tasks[j]?) ∧
    (∃ t', s'.tasks[i]? = some t' ∧ t'.completed = done ∧
      t'.id = t.id ∧ t'.task = t.task ∧ t'.category = t.category ∧
      t'.priority = t.priority ∧ t'.due_date = t.due_date ∧ t'.notes = t.notes ∧
      t'.created_at = t.created_at) ∧
    s'.tasks.length = s.tasks.length ∧
    s'.file = FileState.parsed (encodeTasks s'.tasks) := by
  have hdef : toggle_complete s i done =
      { tasks := mutateAt s.tasks i (fun u => { u with completed := done }),
        file := save_tasks (mutateAt s.tasks i (fun u => { u with completed := done })) s.file } := by
    simp [toggle_complete, h, hne]
  refine ⟨?_, ?_, ?_, ?_⟩
  · intro j hj
    rw [hdef]
    exact mutateAt_get_ne s.tasks i j _ hj
  · refine ⟨{ t with completed := done }, ?_, rfl, rfl, rfl, rfl, rfl, rfl, rfl, rfl⟩
    rw [hdef]
    exact mutateAt_get_eq s.tasks i _ t h
  · rw [hdef]
    exact mutateAt_length s.tasks i _
  · rw [hdef]
    rfl

theorem toggle_frame_witness :
    let t0 : Task := ⟨1700000000, "buy milk", "General", "High", "2023-11-15", "n",
      false, "2023-11-14 22:13:20"⟩
    let s : AppState := ⟨[t0], FileState.absent⟩
    let s' := toggle_complete s 0 true
    (∀ j, j ≠ 0 → s'.tasks[j]? = s.tasks[j]?) ∧
    (∃ t', s'.tasks[0]? = some t' ∧ t'.completed = true ∧
      t'.id = t0.id ∧ t'.task = t0.task ∧ t'.category = t0.category ∧
      t'.priority = t0.priority ∧ t'.due_date = t0.due_date ∧ t'.notes = t0.notes ∧
      t'.created_at = t0.created_at) ∧
    s'.tasks.length = s.tasks.length ∧
    s'.file = FileState.parsed (encodeTasks s'.tasks) :=
  toggle_frame ⟨[⟨1700000000, "buy milk", "General", "High", "2023-11-15", "n",
    false, "2023-11-14 22:13:20"⟩], FileState.absent⟩ 0 true _ rfl (by decide)

theorem searchStage_sublist (c : FilterCriteria) (l : List Task) :
    List.Sublist (searchStage c l) l := by
  unfold searchStage
  split
  · exact List.filter_sublist l
  · exact List.Sublist.refl l

theorem categoryStage_sublist (c : FilterCriteria) (l : List Task) :
    List.Sublist (categoryStage c l) l := by
  unfold categoryStage
  split
  · exact List.filter_sublist l
  · exact List.Sublist.refl l

theorem priorityStage_sublist (c : FilterCriteria) (l : List Task) :
    List.Sublist (priorityStage c l) l := by
  unfold priorityStage
  split
  · exact List.filter_sublist l
  · exact List.Sublist.refl l

theorem statusStage_sublist (c : FilterCriteria) (l : List Task) :
    List.Sublist (statusStage c l) l := by
  unfold statusStage
  split
  · exact List.filter_sublist l
  split
  · exact List.filter_sublist l
  · exact List.Sublist.refl l

theorem searchStage_refines (c c' : FilterCriteria)
    (hs : c'.search = "" ∨ c'.search = c.search) {l l' : List Task}
    (h : List.Sublist l l') :
    List.Sublist (searchStage c l) (searchStage c' l') := by
  rcases hs with hs | hs
  · have he : searchStage c' l' = l' := by simp [searchStage, hs]
    rw [he]
    exact (searchStage_sublist c l).trans h
  · by_cases ha : c.search = ""
    · simp only [searchStage, hs, ha, ne_eq, not_true_eq_false, if_false]
      exact h
    · simp only [searchStage, hs, ha, ne_eq, not_false_eq_true, if_true]
      exact List.Sublist.filter _ h

theorem categoryStage_refines (c c' : FilterCriteria)
    (hc : c'.category = "All" ∨ c'.category = c.category) {l l' : List Task}
    (h : List.Sublist l l') :
    List.Sublist (categoryStage c l) (categoryStage c' l') := by
  rcases hc with hc | hc
  · have he : categoryStage c' l' = l' := by simp [categoryStage, hc]
    rw [he]
    exact (categoryStage_sublist c l).trans h
  · by_cases ha : c.category = "All"
    · simp only [categoryStage, hc, ha, ne_eq, not_true_eq_false, if_false]
      exact h
    · simp only [categoryStage, hc, ha, ne_eq, not_false_eq_true, if_true]
      exact List.Sublist.filter _ h

theorem priorityStage_refines (c c' : FilterCriteria)
    (hp : c'.priority = "All" ∨ c'.priority = c.priority) {l l' : List Task}
    (h : List.Sublist l l') :
    List.Sublist (priorityStage c l) (priorityStage c' l') := by
  rcases hp with hp | hp
  · have he : priorityStage c' l' = l' := by simp [priorityStage, hp]
    rw [he]
    exact (priorityStage_sublist c l).trans h
  · by_cases ha : c.priority = "All"
    · simp only [priorityStage, hp, ha, ne_eq, not_true_eq_false, if_false]
      exact h
    · simp only [priorityStage, hp, ha, ne_eq, not_false_eq_true, if_true]
      exact List.Sublist.filter _ h

theorem statusStage_refines (c c' : FilterCriteria)
    (hst : (c'.status ≠ "Completed" ∧ c'.status ≠ "Pending") ∨ c'.status = c.status)
    {l l' : List Task} (h : List.Sublist l l') :
    List.Sublist (statusStage c l) (statusStage c' l') := by
  rcases hst with ⟨h1, h2⟩ | hst
  · have he : statusStage c' l' = l' := by simp [statusStage, h1, h2]
    rw [he]
    exact (statusStage_sublist c l).trans h
  · by_cases h1 : c.status = "Completed"
    · simp only [statusStage, hst, h1, if_true]
      exact List.Sublist.filter _ h
    · by_cases h2 : c.status = "Pending"
      · simp only [statusStage, hst, h1, h2, if_false, if_true]
        exact List.Sublist.filter _ h
      · simp only [statusStage, hst, h1, h2, if_false]
        exact h

/-- C8: filtering is monotonic: for every task list, applying additional
filters (a search text, a category, a priority, or a completion status on top
of the filters of `c'`) yields a sublist of the `c'`-filtered result — the
filters are applied as a strict intersection in a fixed order — so the result
set size never increases. -/
theorem applyFilters_monotone (tasks : List Task) (c c' : FilterCriteria)
    (h : Refines c c') :
    List.Sublist (applyFilters tasks c) (applyFilters tasks c') ∧
    (applyFilters tasks c).length ≤ (applyFilters tasks c').length := by
  obtain ⟨hs, hc, hp, hst⟩ := h
  have hsub : List.Sublist (applyFilters tasks c) (applyFilters tasks c') :=
    statusStage_refines c c' hst
      (priorityStage_refines c c' hp
        (categoryStage_refines c c' hc
          (searchStage_refines c c' hs (List.Sublist.refl tasks))))
  exact ⟨hsub, hsub.length_le⟩

theorem applyFilters_monotone_witness :
    let t1 : Task := ⟨1, "Buy milk", "Food", "High", "2023-11-15", "", false, "c"⟩
    let t2 : Task := ⟨2, "Buy bread", "Food", "Low", "2023-11-16", "", true, "c"⟩
    let t3 : Task := ⟨3, "Walk dog", "Pets", "High", "2023-11-17", "", false, "c"⟩
    let c : FilterCriteria := ⟨"buy", "Food", "All", "Pending"⟩
    let c' : FilterCriteria := ⟨"buy", "All", "All", "All"⟩
    Refines c c' ∧
    (List.Sublist (applyFilters [t1, t2, t3] c) (applyFilters [t1, t2, t3] c') ∧
      (applyFilters [t1, t2, t3] c).length ≤ (applyFilters [t1, t2, t3] c').length) :=
  ⟨⟨Or.inr rfl, Or.inl rfl, Or.inl rfl, Or.inl (by decide)⟩,
    applyFilters_monotone _ ⟨"buy", "Food", "All", "Pending"⟩ ⟨"buy", "All", "All", "All"⟩
      ⟨Or.inr rfl, Or.inl rfl, Or.inl rfl, Or.inl (by decide)⟩⟩

theorem parse_date_empty : parse_date "" = none := rfl

/-- C6: for every task with a parsable `due_date`, with
`days_left = due_date - today` in days, the derived status is Overdue with
severity `-days_left` when `days_left < 0`, Due Today when `days_left = 0`,
and the days-remaining display when `days_left > 0`; a task with a missing
(empty) or unparsable `due_date` gets no derived status and causes no error.
The spec-side classifier `spec_due_status` states exactly this, and the code
agrees with it on every task and every current date; the concrete conjuncts
check the three scenario rows of section 8. -/
theorem display_due_status_spec :
    (∀ (t : Task) (today : Date), display_due_status t today = spec_due_status t today) ∧
    display_due_status ⟨1, "a", "General", "High", "2026-10-12", "", false, "c"⟩
      ⟨2026, 10, 12⟩ = some DueStatus.dueToday ∧
    display_due_status ⟨1, "a", "General", "High", "2026-10-11", "", false, "c"⟩
      ⟨2026, 10, 12⟩ = some (DueStatus.overdue 1) ∧
    display_due_status ⟨1, "a", "General", "High", "2026-10-13", "", false, "c"⟩
      ⟨2026, 10, 12⟩ = some (DueStatus.remaining 1) ∧
    (∀ today : Date,
      display_due_status ⟨1, "a", "General", "High", "", "", false, "c"⟩ today = none) ∧
    (∀ today : Date,
      display_due_status ⟨1, "a", "General", "High", "not a date", "", false, "c"⟩ today = none) := by
  refine ⟨?_, by decide, by decide, by decide, fun today => rfl, fun today => ?_⟩
  · intro t today
    by_cases h : t.due_date = ""
    · simp [display_due_status, spec_due_status, h, parse_date_empty]
    · simp only [display_due_status, spec_due_status, h, if_false]
      cases parse_date t.due_date <;> rfl
  · have hp : parse_date "not a date" = none := by decide
    simp [display_due_status, spec_due_status, hp]

/-- C5 counterexample: an incomplete task whose `due_date` is *today* (so
`days_until_due` derived as in section 4.4 is `0`, which the claim puts in
Due Soon) is bucketed Overdue by the code whenever the current time is past
midnight (here noon), because line 186 subtracts the full current timestamp
from midnight of the due date. -/
theorem chart_bucket_counterexample :
    let t : Task := ⟨1, "pay rent", "General", "High", "2024-10-10", "", false, "c"⟩
    let today : Date := ⟨2024, 10, 10⟩
    let nowMin : Int := today.toDays * 1440 + 720
    pending_status_list [t] nowMin = some ["Overdue"] ∧
    spec_days_until_due ((⟨2024, 10, 10⟩ : Date).toDays) ((⟨2024, 10, 10⟩ : Date).toDays) = 0 ∧
    chart_status (spec_days_until_due ((⟨2024, 10, 10⟩ : Date).toDays)
      ((⟨2024, 10, 10⟩ : Date).toDays)) = "Due Soon" := by
  refine ⟨by decide, by decide, by decide⟩

/-- C5 (amended): the pending-task due-status buckets are computed only over
incomplete tasks and the thresholds are as claimed — Overdue iff
`days_until_due < 0`, Due Soon iff `0 ≤ days_until_due ≤ 3` (inclusive of
day 3), Future iff `days_until_due > 3` — but `days_until_due` is the floored
*timestamp* difference between midnight of the due date and the current
moment: one less than the section 4.4 date difference whenever the current
time is past midnight.  An incomplete task due exactly 3 days from today
still lands in Due Soon at any time of day. -/
theorem chart_buckets_amended (today nowMin : Int) (tasks : List Task)
    (rows : List (Task × String))
    (h1 : today * 1440 ≤ nowMin) (h2 : nowMin < (today + 1) * 1440)
    (h3 : chart_status_rows tasks nowMin = some rows) :
    (∀ d : Int, (chart_status d = "Overdue" ↔ d < 0) ∧
      (chart_status d = "Due Soon" ↔ 0 ≤ d ∧ d ≤ 3) ∧
      (chart_status d = "Future" ↔ 3 < d)) ∧
    (∀ dueDay : Int, chart_days_until_due dueDay nowMin =
      if nowMin = today * 1440 then dueDay - today else dueDay - today - 1) ∧
    chart_status (chart_days_until_due (today + 3) nowMin) = "Due Soon" ∧
    pending_status_list tasks nowMin =
      some ((rows.filter (fun r => !r.1.completed)).map Prod.snd) := by
  have hchar : ∀ d : Int, (chart_status d = "Overdue" ↔ d < 0) ∧
      (chart_status d = "Due Soon" ↔ 0 ≤ d ∧ d ≤ 3) ∧
      (chart_status d = "Future" ↔ 3 < d) := by
    intro d
    unfold chart_status
    split_ifs with hlt hle
    · exact ⟨iff_of_true rfl hlt, iff_of_false (by decide) (by omega),
        iff_of_false (by decide) (by omega)⟩
    · exact ⟨iff_of_false (by decide) (by omega), iff_of_true rfl (by omega),
        iff_of_false (by decide) (by omega)⟩
    · exact ⟨iff_of_false (by decide) (by omega), iff_of_false (by decide) (by omega),
        iff_of_true rfl (by omega)⟩
  have hdays : ∀ dueDay : Int, chart_days_until_due dueDay nowMin =
      if nowMin = today * 1440 then dueDay - today else dueDay - today - 1 := by
    intro dueDay
    unfold chart_days_until_due
    rw [Int.fdiv_eq_ediv _ (by omega)]
    split_ifs with h
    · omega
    · omega
  refine ⟨hchar, hdays, ?_, ?_⟩
  · rw [hdays (today + 3)]
    split_ifs with h
    · have h3eq : today + 3 - today = 3 := by omega
      rw [h3eq]
      rfl
    · have h2eq : today + 3 - today - 1 = 2 := by omega
      rw [h2eq]
      rfl
  · unfold pending_status_list
    rw [h3]
    rfl

theorem chart_buckets_amended_witness :
    let t : Task := ⟨1, "pay rent", "General", "High", "2024-10-10", "", false, "c"⟩
    let nowMin : Int := 20000 * 1440 + 720
    (20000 * 1440 ≤ nowMin ∧ nowMin < (20000 + 1) * 1440 ∧
      chart_status_rows [t] nowMin = some [(t, "Future")]) ∧
    ((∀ d : Int, (chart_status d = "Overdue" ↔ d < 0) ∧
      (chart_status d = "Due Soon" ↔ 0 ≤ d ∧ d ≤ 3) ∧
      (chart_status d = "Future" ↔ 3 < d)) ∧
    (∀ dueDay : Int, chart_days_until_due dueDay nowMin =
      if nowMin = 20000 * 1440 then dueDay - 20000 else dueDay - 20000 - 1) ∧
    chart_status (chart_days_until_due (20000 + 3) nowMin) = "Due Soon" ∧
    pending_status_list [t] nowMin =
      some (([(t, "Future")].filter (fun r => !r.1.completed)).map Prod.snd)) :=
  ⟨⟨by decide, by decide, by decide⟩,
    chart_buckets_amended 20000 (20000 * 1440 + 720)
      [⟨1, "pay rent", "General", "High", "2024-10-10", "", false, "c"⟩]
      [(⟨1, "pay rent", "General", "High", "2024-10-10", "", false, "c"⟩, "Future")]
      (by decide) (by decide) (by decide)⟩

theorem sum_boolIndicator (tasks : List Task) :
    (tasks.map (fun t => boolIndicator t.completed)).sum =
      ((tasks.filter (fun t => t.completed)).length : ℚ) := by
  induction tasks with
  | nil => simp
  | cons t ts ih =>
    rw [List.map_cons, List.sum_cons, ih]
    by_cases h : t.completed
    · have hfc : List.filter (fun t => t.completed) (t :: ts) =
          t :: List.filter (fun t => t.completed) ts := by
        simp [List.filter_cons, h]
      have hb : boolIndicator t.completed = 1 := by simp [boolIndicator, h]
      rw [hfc, List.length_cons, hb]
      push_cast
      ring
    · have hfc : List.filter (fun t => t.completed) (t :: ts) =
          List.filter (fun t => t.completed) ts := by
        simp [List.filter_cons, h]
      have hb : boolIndicator t.completed = 0 := by simp [boolIndicator, h]
      rw [hfc, hb]
      ring

theorem completion_rate_formula (tasks : List Task) (h : tasks ≠ []) :
    completion_rate tasks =
      some (((tasks.filter (fun t => t.completed)).length : ℚ) / (tasks.length : ℚ) * 100) := by
  have hne : tasks.isEmpty = false := by
    cases tasks with
    | nil => exact absurd rfl h
    | cons t ts => rfl
  simp [completion_rate, hne, seriesMean, sum_boolIndicator]

/-- C9: for every non-empty task list the reported completion rate equals
(count of completed tasks / total tasks) × 100; for the empty list no rate is
computed; two tasks with exactly one completed give 50%. -/
theorem completion_rate_spec (tasks : List Task) (h : tasks ≠ []) :
    completion_rate tasks =
      some (((tasks.filter (fun t => t.completed)).length : ℚ) / (tasks.length : ℚ) * 100) ∧
    completion_rate [] = none ∧
    completion_rate [⟨1, "a", "General", "High", "", "", true, "c"⟩,
      ⟨2, "b", "General", "Low", "", "", false, "c"⟩] = some 50 := by
  refine ⟨completion_rate_formula tasks h, rfl, ?_⟩
  rw [completion_rate_formula _ (by simp)]
  norm_num [List.filter]

theorem completion_rate_spec_witness :
    let t1 : Task := ⟨1, "a", "General", "High", "", "", true, "c"⟩
    let t2 : Task := ⟨2, "b", "General", "Low", "", "", false, "c"⟩
    ([t1, t2] : List Task) ≠ [] ∧
    (completion_rate [t1, t2] =
      some ((([t1, t2].filter (fun t => t.completed)).length : ℚ) /
        (([t1, t2] : List Task).length : ℚ) * 100) ∧
     completion_rate [] = none ∧
     completion_rate [⟨1, "a", "General", "High", "", "", true, "c"⟩,
       ⟨2, "b", "General", "Low", "", "", false, "c"⟩] = some 50) :=
  ⟨by simp,
    completion_rate_spec [⟨1, "a", "General", "High", "", "", true, "c"⟩,
      ⟨2, "b", "General", "Low", "", "", false, "c"⟩] (by simp)⟩

end TodoApp
